import Mathlib

/-!
# DxvkUnboundResources (src/dxvk/dxvk_unbound.h)

A shallow embedding of the dummy-resource provider of DXVK and of its four
descriptor accessors.

* Vulkan handles are natural numbers, `VK_NULL_HANDLE` is `0`; Vulkan
  enumerations are integers carrying the values of the Vulkan headers.
* An `Rc<T>` member of the class is embedded as the object it points to: the
  constructor fills every member in and the accessors dereference them
  without a test.
* `getImageView` returns a raw pointer; it is embedded as an `Option`, `none`
  being the lookup that yields no view.  `imageViewDescriptor` dereferences
  that pointer without a test, so it yields a descriptor only when the lookup
  yields a view: its result is an `Option` as well, `none` being the call that
  never returns.
* The header only declares the resource classes, `getImageView`, the
  constructor and the `create*` helpers.  Their embeddings follow the design
  document of the component and say so in their doc comments.
-/

namespace dxvk

/-! ## Vulkan types -/

/-- Vulkan object handle (`VkBuffer`, `VkImageView`, `VkSampler`, ...). -/
abbrev VkHandle := Nat

/-- The null handle. -/
def VK_NULL_HANDLE : VkHandle := 0

/-- Device sizes and offsets (`VkDeviceSize`). -/
abbrev VkDeviceSize := Nat

/-- The `VkImageLayout` enumeration. -/
abbrev VkImageLayout := Int

def VK_IMAGE_LAYOUT_UNDEFINED : VkImageLayout := 0
def VK_IMAGE_LAYOUT_SHADER_READ_ONLY_OPTIMAL : VkImageLayout := 5

/-- The `VkImageViewType` enumeration; a C enumeration, so an argument of this
type can hold any integer. -/
abbrev VkImageViewType := Int

def VK_IMAGE_VIEW_TYPE_1D : VkImageViewType := 0
def VK_IMAGE_VIEW_TYPE_2D : VkImageViewType := 1
def VK_IMAGE_VIEW_TYPE_3D : VkImageViewType := 2
def VK_IMAGE_VIEW_TYPE_CUBE : VkImageViewType := 3
def VK_IMAGE_VIEW_TYPE_1D_ARRAY : VkImageViewType := 4
def VK_IMAGE_VIEW_TYPE_2D_ARRAY : VkImageViewType := 5
def VK_IMAGE_VIEW_TYPE_CUBE_ARRAY : VkImageViewType := 6

/-- The `VkImageType` enumeration. -/
abbrev VkImageType := Int

def VK_IMAGE_TYPE_1D : VkImageType := 0
def VK_IMAGE_TYPE_2D : VkImageType := 1
def VK_IMAGE_TYPE_3D : VkImageType := 2

/-- The `VkFormat` enumeration. -/
abbrev VkFormat := Int

def VK_FORMAT_R32_UINT : VkFormat := 98

/-- The `VkSamplerAddressMode` enumeration. -/
abbrev VkSamplerAddressMode := Int

def VK_SAMPLER_ADDRESS_MODE_CLAMP_TO_EDGE : VkSamplerAddressMode := 2

/-- Buffer usage bits (`VkBufferUsageFlags`). -/
abbrev VkBufferUsageFlags := Nat

def VK_BUFFER_USAGE_UNIFORM_TEXEL_BUFFER_BIT : VkBufferUsageFlags := 0x4
def VK_BUFFER_USAGE_STORAGE_TEXEL_BUFFER_BIT : VkBufferUsageFlags := 0x8
def VK_BUFFER_USAGE_UNIFORM_BUFFER_BIT : VkBufferUsageFlags := 0x10
def VK_BUFFER_USAGE_STORAGE_BUFFER_BIT : VkBufferUsageFlags := 0x20

/-- The descriptor struct `VkDescriptorBufferInfo`. -/
structure VkDescriptorBufferInfo where
  buffer : VkHandle
  offset : VkDeviceSize
  range : VkDeviceSize
deriving DecidableEq, Repr

/-- The descriptor struct `VkDescriptorImageInfo`. -/
structure VkDescriptorImageInfo where
  sampler : VkHandle
  imageView : VkHandle
  imageLayout : VkImageLayout
deriving DecidableEq, Repr

/-! ## Resource classes (dxvk_sampler.h, dxvk_buffer.h, dxvk_image.h) -/

/-- Modelled from the spec: the creation info of a sampler (dxvk_sampler.h is
not among the sources).  It records what the design fixes for the dummy
sampler: the addressing mode of the three coordinates and whether anisotropic
filtering is on. -/
structure DxvkSamplerCreateInfo where
  addressModeU : VkSamplerAddressMode
  addressModeV : VkSamplerAddressMode
  addressModeW : VkSamplerAddressMode
  useAnisotropy : Bool
deriving DecidableEq, Repr

/-- Modelled from the spec: the class `DxvkSampler` (dxvk_sampler.h is not
among the sources): a sampler object, its creation info and its handle. -/
structure DxvkSampler where
  m_info : DxvkSamplerCreateInfo
  m_sampler : VkHandle
deriving DecidableEq, Repr

/-- Modelled from the spec: `DxvkSampler::handle()`, the sampler handle. -/
def DxvkSampler.handle (s : DxvkSampler) : VkHandle := s.m_sampler

/-- Modelled from the spec: the creation info of a buffer (dxvk_buffer.h is
not among the sources): its size in bytes and its usage bits. -/
structure DxvkBufferCreateInfo where
  size : VkDeviceSize
  usage : VkBufferUsageFlags
deriving DecidableEq, Repr

/-- Modelled from the spec: the class `DxvkBuffer` (dxvk_buffer.h is not among
the sources): a buffer object, its creation info and its handle. -/
structure DxvkBuffer where
  m_info : DxvkBufferCreateInfo
  m_handle : VkHandle
deriving DecidableEq, Repr

/-- Modelled from the spec: the slice type returned by `DxvkBuffer::slice()`
(dxvk_buffer.h is not among the sources): a buffer handle, an offset and a
length. -/
structure DxvkBufferSlice where
  m_handle : VkHandle
  m_offset : VkDeviceSize
  m_length : VkDeviceSize
deriving DecidableEq, Repr

/-- Modelled from the spec: the `handle()` getter of a slice. -/
def DxvkBufferSlice.handle (s : DxvkBufferSlice) : VkHandle := s.m_handle

/-- Modelled from the spec: the `offset()` getter of a slice. -/
def DxvkBufferSlice.offset (s : DxvkBufferSlice) : VkDeviceSize := s.m_offset

/-- Modelled from the spec: the `length()` getter of a slice. -/
def DxvkBufferSlice.length (s : DxvkBufferSlice) : VkDeviceSize := s.m_length

/-- Modelled from the spec: `DxvkBuffer::info()`, the creation info. -/
def DxvkBuffer.info (b : DxvkBuffer) : DxvkBufferCreateInfo := b.m_info

/-- Modelled from the spec: `DxvkBuffer::slice()` (dxvk_buffer.h is not among
the sources).  The design gives the buffer descriptor as the handle of the
buffer, offset 0 and the full length, so the slice of a buffer is the whole
buffer. -/
def DxvkBuffer.slice (b : DxvkBuffer) : DxvkBufferSlice :=
  { m_handle := b.m_handle, m_offset := 0, m_length := b.m_info.size }

/-- Modelled from the spec: the creation info of a buffer view (dxvk_buffer.h
is not among the sources): element format and the byte range it covers. -/
structure DxvkBufferViewCreateInfo where
  format : VkFormat
  rangeOffset : VkDeviceSize
  rangeLength : VkDeviceSize
deriving DecidableEq, Repr

/-- Modelled from the spec: the class `DxvkBufferView` (dxvk_buffer.h is not
among the sources): a typed view, the buffer it views, and its handle. -/
structure DxvkBufferView where
  m_info : DxvkBufferViewCreateInfo
  m_buffer : DxvkBuffer
  m_view : VkHandle
deriving DecidableEq, Repr

/-- Modelled from the spec: `DxvkBufferView::handle()`, the view handle. -/
def DxvkBufferView.handle (v : DxvkBufferView) : VkHandle := v.m_view

/-- Modelled from the spec: `DxvkBufferView::info()`, the creation info. -/
def DxvkBufferView.info (v : DxvkBufferView) : DxvkBufferViewCreateInfo := v.m_info

/-- Modelled from the spec: the size in bytes of one element of a format, for
the one format the design uses for a buffer view: a single 32-bit channel is
four bytes.  Other formats are not sized here. -/
def formatElementSize (f : VkFormat) : Option VkDeviceSize :=
  if f = VK_FORMAT_R32_UINT then some 4 else none

/-- Modelled from the spec: the creation info of an image (dxvk_image.h is not
among the sources): dimensionality, extent, array layers, mip levels, and the
layout the image is used in. -/
structure DxvkImageCreateInfo where
  type : VkImageType
  width : Nat
  height : Nat
  depth : Nat
  numLayers : Nat
  mipLevels : Nat
  layout : VkImageLayout
deriving DecidableEq, Repr

/-- Modelled from the spec: the class `DxvkImage` (dxvk_image.h is not among
the sources): an image object, its creation info and its handle. -/
structure DxvkImage where
  m_info : DxvkImageCreateInfo
  m_image : VkHandle
deriving DecidableEq, Repr

/-- Modelled from the spec: `DxvkImage::handle()`, the image handle. -/
def DxvkImage.handle (i : DxvkImage) : VkHandle := i.m_image

/-- Modelled from the spec: `DxvkImage::info()`, the creation info. -/
def DxvkImage.info (i : DxvkImage) : DxvkImageCreateInfo := i.m_info

/-- Modelled from the spec: the creation info of an image view (dxvk_image.h
is not among the sources): the view shape and the layers and levels seen. -/
structure DxvkImageViewCreateInfo where
  type : VkImageViewType
  minLevel : Nat
  numLevels : Nat
  minLayer : Nat
  numLayers : Nat
deriving DecidableEq, Repr

/-- Modelled from the spec: the class `DxvkImageView` (dxvk_image.h is not
among the sources): a view, the one image it references, and its handle. -/
structure DxvkImageView where
  m_info : DxvkImageViewCreateInfo
  m_image : DxvkImage
  m_view : VkHandle
deriving DecidableEq, Repr

/-- Modelled from the spec: `DxvkImageView::handle()`, the view handle. -/
def DxvkImageView.handle (v : DxvkImageView) : VkHandle := v.m_view

/-- Modelled from the spec: `DxvkImageView::info()`, the creation info. -/
def DxvkImageView.info (v : DxvkImageView) : DxvkImageViewCreateInfo := v.m_info

/-- Modelled from the spec: `DxvkImageView::image()`, the underlying image. -/
def DxvkImageView.image (v : DxvkImageView) : DxvkImage := v.m_image

/-- Modelled from the spec: `DxvkImageView::imageInfo()` (dxvk_image.h is not
among the sources): the creation info of the underlying image. -/
def DxvkImageView.imageInfo (v : DxvkImageView) : DxvkImageCreateInfo := v.m_image.info

/-! ## The provider (dxvk_unbound.h) -/

/-- The members of `class DxvkUnboundResources`.  The objects behind the
`Rc` members are part of the value, so an equality of providers is also an
equality of what the members point to. -/
structure DxvkUnboundResources where
  m_sampler : DxvkSampler
  m_buffer : DxvkBuffer
  m_bufferView : DxvkBufferView
  m_image1D : DxvkImage
  m_image2D : DxvkImage
  m_image3D : DxvkImage
  m_view1D : DxvkImageView
  m_view1DArr : DxvkImageView
  m_view2D : DxvkImageView
  m_view2DArr : DxvkImageView
  m_viewCube : DxvkImageView
  m_viewCubeArr : DxvkImageView
  m_view3D : DxvkImageView
deriving DecidableEq, Repr

namespace DxvkUnboundResources

/-- `DxvkUnboundResources::bufferDescriptor`. -/
def bufferDescriptor (self : DxvkUnboundResources) : VkDescriptorBufferInfo :=
  let slice := self.m_buffer.slice
  { buffer := slice.handle
    offset := slice.offset
    range := slice.length }

/-- `DxvkUnboundResources::bufferViewDescriptor`. -/
def bufferViewDescriptor (self : DxvkUnboundResources) : VkHandle :=
  self.m_bufferView.handle

/-- `DxvkUnboundResources::samplerDescriptor`. -/
def samplerDescriptor (self : DxvkUnboundResources) : VkDescriptorImageInfo :=
  { sampler := self.m_sampler.handle
    imageView := VK_NULL_HANDLE
    imageLayout := VK_IMAGE_LAYOUT_UNDEFINED }

/-- Modelled from the spec: `DxvkUnboundResources::getImageView`, declared in
the header and defined in dxvk_unbound.cpp, which is not among the sources.
A direct branch on the shape: each of the seven recognized shapes has its
view; any other value is a contract violation and yields no view. -/
def getImageView (self : DxvkUnboundResources) (type : VkImageViewType) :
    Option DxvkImageView :=
  if type = VK_IMAGE_VIEW_TYPE_1D then some self.m_view1D
  else if type = VK_IMAGE_VIEW_TYPE_1D_ARRAY then some self.m_view1DArr
  else if type = VK_IMAGE_VIEW_TYPE_2D then some self.m_view2D
  else if type = VK_IMAGE_VIEW_TYPE_2D_ARRAY then some self.m_view2DArr
  else if type = VK_IMAGE_VIEW_TYPE_CUBE then some self.m_viewCube
  else if type = VK_IMAGE_VIEW_TYPE_CUBE_ARRAY then some self.m_viewCubeArr
  else if type = VK_IMAGE_VIEW_TYPE_3D then some self.m_view3D
  else none

/-- `DxvkUnboundResources::imageViewDescriptor`.  The pointer returned by
`getImageView` is dereferenced without a test: with no view the call does not
return a descriptor (`none`). -/
def imageViewDescriptor (self : DxvkUnboundResources) (type : VkImageViewType) :
    Option VkDescriptorImageInfo :=
  match self.getImageView type with
  | none => none
  | some view =>
    some { sampler := VK_NULL_HANDLE
           imageView := view.handle
           imageLayout := view.imageInfo.layout }

/-! ### The accessor surface as calls on a provider -/

/-- The four accessor operations, with their argument. -/
inductive Accessor where
  | bufferDescriptor
  | bufferViewDescriptor
  | samplerDescriptor
  | imageViewDescriptor (type : VkImageViewType)
deriving DecidableEq, Repr

/-- What a call hands back to the caller: the value of the accessor, or
nothing when the call does not return. -/
inductive Returned where
  | bufferInfo (d : VkDescriptorBufferInfo)
  | bufferView (h : VkHandle)
  | imageInfo (d : VkDescriptorImageInfo)
  | noReturn
deriving DecidableEq, Repr

/-- One call of an accessor on a provider: what is returned, and the provider
after the call.  All four member functions are declared `const` and none of
them writes a member, so the provider after the call is the one before. -/
def call (self : DxvkUnboundResources) : Accessor → Returned × DxvkUnboundResources
  | .bufferDescriptor => (.bufferInfo self.bufferDescriptor, self)
  | .bufferViewDescriptor => (.bufferView self.bufferViewDescriptor, self)
  | .samplerDescriptor => (.imageInfo self.samplerDescriptor, self)
  | .imageViewDescriptor type =>
    match self.imageViewDescriptor type with
    | some d => (.imageInfo d, self)
    | none => (.noReturn, self)

/-- The provider after a sequence of accessor calls. -/
def callAll (self : DxvkUnboundResources) : List Accessor → DxvkUnboundResources
  | [] => self
  | a :: rest => callAll (call self a).2 rest

/-- The seven view shapes the provider holds a view for. -/
def recognizedViewTypes : List VkImageViewType :=
  [ VK_IMAGE_VIEW_TYPE_1D, VK_IMAGE_VIEW_TYPE_1D_ARRAY,
    VK_IMAGE_VIEW_TYPE_2D, VK_IMAGE_VIEW_TYPE_2D_ARRAY,
    VK_IMAGE_VIEW_TYPE_CUBE, VK_IMAGE_VIEW_TYPE_CUBE_ARRAY,
    VK_IMAGE_VIEW_TYPE_3D ]

end DxvkUnboundResources

/-! ## Construction (dxvk_unbound.cpp) -/

/-- Modelled from the spec: an owned handle, what a successful creation on the
device returns.  It is never the null handle. -/
abbrev OwnedHandle := { h : VkHandle // h ≠ VK_NULL_HANDLE }

/-- Modelled from the spec: the owning device (`DxvkDevice`, not among the
sources), reduced to the interface the provider consumes: one creation
capability per kind of object, each taking a description and returning an
owned handle or a creation failure (`none`), and the one-time submission of an
image layout transition, which reports whether it went through. -/
structure DxvkDevice where
  createSampler : DxvkSamplerCreateInfo → Option OwnedHandle
  createBuffer : DxvkBufferCreateInfo → Option OwnedHandle
  createBufferView : VkHandle → DxvkBufferViewCreateInfo → Option OwnedHandle
  createImage : DxvkImageCreateInfo → Option OwnedHandle
  createImageView : VkHandle → DxvkImageViewCreateInfo → Option OwnedHandle
  transitionImageLayout : VkHandle → VkImageLayout → VkImageLayout → Bool

namespace DxvkUnboundResources

/-- Modelled from the spec: `createBuffer` (dxvk_unbound.cpp is not among the
sources).  The buffer has the smallest usable size: the view over the whole of
it holds exactly one 32-bit element, so four bytes.  Its usage is the union
of uniform, storage and texel buffer usage. -/
def createBuffer (dev : DxvkDevice) : Option DxvkBuffer :=
  let info : DxvkBufferCreateInfo :=
    { size := 4
      usage := VK_BUFFER_USAGE_UNIFORM_BUFFER_BIT
           ||| VK_BUFFER_USAGE_STORAGE_BUFFER_BIT
           ||| VK_BUFFER_USAGE_UNIFORM_TEXEL_BUFFER_BIT
           ||| VK_BUFFER_USAGE_STORAGE_TEXEL_BUFFER_BIT }
  match dev.createBuffer info with
  | none => none
  | some h => some { m_info := info, m_handle := h.val }

/-- Modelled from the spec: `createBufferView` (dxvk_unbound.cpp is not among
the sources): a view over the entire buffer with a single-channel 32-bit
unsigned-integer element format. -/
def createBufferView (dev : DxvkDevice) (buffer : DxvkBuffer) : Option DxvkBufferView :=
  let info : DxvkBufferViewCreateInfo :=
    { format := VK_FORMAT_R32_UINT
      rangeOffset := 0
      rangeLength := buffer.info.size }
  match dev.createBufferView buffer.m_handle info with
  | none => none
  | some h => some { m_info := info, m_buffer := buffer, m_view := h.val }

/-- Modelled from the spec: `createSampler` (dxvk_unbound.cpp is not among the
sources): a fixed configuration, clamp-to-edge addressing, no anisotropy. -/
def createSampler (dev : DxvkDevice) : Option DxvkSampler :=
  let info : DxvkSamplerCreateInfo :=
    { addressModeU := VK_SAMPLER_ADDRESS_MODE_CLAMP_TO_EDGE
      addressModeV := VK_SAMPLER_ADDRESS_MODE_CLAMP_TO_EDGE
      addressModeW := VK_SAMPLER_ADDRESS_MODE_CLAMP_TO_EDGE
      useAnisotropy := false }
  match dev.createSampler info with
  | none => none
  | some h => some { m_info := info, m_sampler := h.val }

/-- Modelled from the spec: `createImage` (dxvk_unbound.cpp is not among the
sources): an image of the given dimensionality with the minimum extent, the
given number of array layers and one mip level, used in the shader-read-only
layout. -/
def createImage (dev : DxvkDevice) (type : VkImageType) (layers : Nat) : Option DxvkImage :=
  let info : DxvkImageCreateInfo :=
    { type := type
      width := 1
      height := 1
      depth := 1
      numLayers := layers
      mipLevels := 1
      layout := VK_IMAGE_LAYOUT_SHADER_READ_ONLY_OPTIMAL }
  match dev.createImage info with
  | none => none
  | some h => some { m_info := info, m_image := h.val }

/-- Modelled from the spec: the one-time transition of a dummy image from the
layout it has at creation to the layout it is used in; a failure is fatal to
the construction. -/
def transitionImage (dev : DxvkDevice) (image : DxvkImage) : Option Unit :=
  if dev.transitionImageLayout image.handle VK_IMAGE_LAYOUT_UNDEFINED image.info.layout
  then some () else none

/-- Modelled from the spec: `createImageView` (dxvk_unbound.cpp is not among
the sources): a view of the given image, tagged with its shape, over the given
number of layers of the single mip level. -/
def createImageView (dev : DxvkDevice) (image : DxvkImage) (type : VkImageViewType)
    (layers : Nat) : Option DxvkImageView :=
  let info : DxvkImageViewCreateInfo :=
    { type := type
      minLevel := 0
      numLevels := 1
      minLayer := 0
      numLayers := layers }
  match dev.createImageView image.handle info with
  | none => none
  | some h => some { m_info := info, m_image := image, m_view := h.val }

/-- Modelled from the spec: the constructor `DxvkUnboundResources(dev)`
(dxvk_unbound.cpp is not among the sources).  In order: the buffer, the view
over it, the sampler, the three base images (six layers for the 2D image, so
that the cube views fit), their layout transitions, and the seven views; the
2D, 2D-array, Cube and Cube-array views are views of the 2D image.  When a
step fails there is no provider (`none`). -/
def construct (dev : DxvkDevice) : Option DxvkUnboundResources := do
  let buffer ← createBuffer dev
  let bufferView ← createBufferView dev buffer
  let sampler ← createSampler dev
  let image1D ← createImage dev VK_IMAGE_TYPE_1D 1
  let image2D ← createImage dev VK_IMAGE_TYPE_2D 6
  let image3D ← createImage dev VK_IMAGE_TYPE_3D 1
  transitionImage dev image1D
  transitionImage dev image2D
  transitionImage dev image3D
  let view1D ← createImageView dev image1D VK_IMAGE_VIEW_TYPE_1D 1
  let view1DArr ← createImageView dev image1D VK_IMAGE_VIEW_TYPE_1D_ARRAY 1
  let view2D ← createImageView dev image2D VK_IMAGE_VIEW_TYPE_2D 1
  let view2DArr ← createImageView dev image2D VK_IMAGE_VIEW_TYPE_2D_ARRAY 1
  let viewCube ← createImageView dev image2D VK_IMAGE_VIEW_TYPE_CUBE 6
  let viewCubeArr ← createImageView dev image2D VK_IMAGE_VIEW_TYPE_CUBE_ARRAY 6
  let view3D ← createImageView dev image3D VK_IMAGE_VIEW_TYPE_3D 1
  pure
    { m_sampler := sampler
      m_buffer := buffer
      m_bufferView := bufferView
      m_image1D := image1D
      m_image2D := image2D
      m_image3D := image3D
      m_view1D := view1D
      m_view1DArr := view1DArr
      m_view2D := view2D
      m_view2DArr := view2DArr
      m_viewCube := viewCube
      m_viewCubeArr := viewCubeArr
      m_view3D := view3D }

end DxvkUnboundResources

/-! ## Concrete devices and providers used as instances -/

/-- A device stub on which every creation succeeds; handles are told apart by
the kind of object and, for images and views, by the description. -/
def stubDevice : DxvkDevice where
  createSampler := fun _ => some ⟨1, by decide⟩
  createBuffer := fun _ => some ⟨2, by decide⟩
  createBufferView := fun _ _ => some ⟨3, by decide⟩
  createImage := fun info => some ⟨Nat.succ (9 + info.type.toNat), Nat.succ_ne_zero _⟩
  createImageView := fun _ info => some ⟨Nat.succ (19 + info.type.toNat), Nat.succ_ne_zero _⟩
  transitionImageLayout := fun _ _ _ => true

/-- The provider built on `stubDevice`, written out. -/
def stubProvider : DxvkUnboundResources :=
  let bufInfo : DxvkBufferCreateInfo := { size := 4, usage := 0x3C }
  let buf : DxvkBuffer := { m_info := bufInfo, m_handle := 2 }
  let img (t : VkImageType) (l : Nat) (h : VkHandle) : DxvkImage :=
    { m_info := { type := t, width := 1, height := 1, depth := 1, numLayers := l,
                  mipLevels := 1, layout := 5 },
      m_image := h }
  let view (i : DxvkImage) (t : VkImageViewType) (l : Nat) (h : VkHandle) : DxvkImageView :=
    { m_info := { type := t, minLevel := 0, numLevels := 1, minLayer := 0, numLayers := l },
      m_image := i, m_view := h }
  { m_sampler := { m_info := { addressModeU := 2, addressModeV := 2, addressModeW := 2,
                               useAnisotropy := false },
                   m_sampler := 1 }
    m_buffer := buf
    m_bufferView := { m_info := { format := 98, rangeOffset := 0, rangeLength := 4 },
                      m_buffer := buf, m_view := 3 }
    m_image1D := img 0 1 10
    m_image2D := img 1 6 11
    m_image3D := img 2 1 12
    m_view1D := view (img 0 1 10) 0 1 20
    m_view1DArr := view (img 0 1 10) 4 1 24
    m_view2D := view (img 1 6 11) 1 1 21
    m_view2DArr := view (img 1 6 11) 5 1 25
    m_viewCube := view (img 1 6 11) 3 6 23
    m_viewCubeArr := view (img 1 6 11) 6 6 26
    m_view3D := view (img 2 1 12) 2 1 22 }

/-- The provider `stubProvider` with the 2D view looking at an image whose
creation info records the general layout (`VK_IMAGE_LAYOUT_GENERAL`, 1). -/
def generalLayoutProvider : DxvkUnboundResources :=
  { stubProvider with
    m_view2D :=
      { m_info := { type := 1, minLevel := 0, numLevels := 1, minLayer := 0, numLayers := 1 },
        m_image :=
          { m_info := { type := 1, width := 1, height := 1, depth := 1, numLayers := 6,
                        mipLevels := 1, layout := 1 },
            m_image := 11 },
        m_view := 21 } }

end dxvk

/-! ## What a successful construction establishes -/

namespace dxvk

open DxvkUnboundResources

theorem createBuffer_some {dev : DxvkDevice} {b : DxvkBuffer}
    (h : createBuffer dev = some b) :
    b.info.size = 4 ∧ b.m_handle ≠ VK_NULL_HANDLE := by
  simp only [createBuffer] at h
  split at h
  · cases h
  · next hd _ =>
    cases h
    exact ⟨rfl, hd.property⟩

theorem createBufferView_some {dev : DxvkDevice} {b : DxvkBuffer} {v : DxvkBufferView}
    (h : createBufferView dev b = some v) :
    v.m_buffer = b ∧ v.m_view ≠ VK_NULL_HANDLE ∧
      v.m_info = { format := VK_FORMAT_R32_UINT, rangeOffset := 0,
                   rangeLength := b.info.size } := by
  simp only [createBufferView] at h
  split at h
  · cases h
  · next hd _ =>
    cases h
    exact ⟨rfl, hd.property, rfl⟩

theorem createImage_some {dev : DxvkDevice} {t : VkImageType} {l : Nat} {i : DxvkImage}
    (h : createImage dev t l = some i) :
    i.info.layout = VK_IMAGE_LAYOUT_SHADER_READ_ONLY_OPTIMAL ∧ i.info.type = t ∧
      i.info.numLayers = l ∧ i.m_image ≠ VK_NULL_HANDLE := by
  simp only [createImage] at h
  split at h
  · cases h
  · next hd _ =>
    cases h
    exact ⟨rfl, rfl, rfl, hd.property⟩

theorem createImageView_some {dev : DxvkDevice} {i : DxvkImage} {t : VkImageViewType}
    {l : Nat} {v : DxvkImageView} (h : createImageView dev i t l = some v) :
    v.m_image = i ∧ v.m_view ≠ VK_NULL_HANDLE ∧ v.m_info.type = t := by
  simp only [createImageView] at h
  split at h
  · cases h
  · next hd _ =>
    cases h
    exact ⟨rfl, hd.property, rfl⟩

/-- Each member of a constructed provider is the result of its creation step. -/
theorem construct_some {dev : DxvkDevice} {p : DxvkUnboundResources}
    (h : construct dev = some p) :
    createBuffer dev = some p.m_buffer ∧
    createBufferView dev p.m_buffer = some p.m_bufferView ∧
    createSampler dev = some p.m_sampler ∧
    createImage dev VK_IMAGE_TYPE_1D 1 = some p.m_image1D ∧
    createImage dev VK_IMAGE_TYPE_2D 6 = some p.m_image2D ∧
    createImage dev VK_IMAGE_TYPE_3D 1 = some p.m_image3D ∧
    createImageView dev p.m_image1D VK_IMAGE_VIEW_TYPE_1D 1 = some p.m_view1D ∧
    createImageView dev p.m_image1D VK_IMAGE_VIEW_TYPE_1D_ARRAY 1 = some p.m_view1DArr ∧
    createImageView dev p.m_image2D VK_IMAGE_VIEW_TYPE_2D 1 = some p.m_view2D ∧
    createImageView dev p.m_image2D VK_IMAGE_VIEW_TYPE_2D_ARRAY 1 = some p.m_view2DArr ∧
    createImageView dev p.m_image2D VK_IMAGE_VIEW_TYPE_CUBE 6 = some p.m_viewCube ∧
    createImageView dev p.m_image2D VK_IMAGE_VIEW_TYPE_CUBE_ARRAY 6 = some p.m_viewCubeArr ∧
    createImageView dev p.m_image3D VK_IMAGE_VIEW_TYPE_3D 1 = some p.m_view3D := by
  unfold construct at h
  obtain ⟨b, hb, h⟩ := Option.bind_eq_some.mp h
  obtain ⟨bv, hbv, h⟩ := Option.bind_eq_some.mp h
  obtain ⟨s, hs, h⟩ := Option.bind_eq_some.mp h
  obtain ⟨i1, hi1, h⟩ := Option.bind_eq_some.mp h
  obtain ⟨i2, hi2, h⟩ := Option.bind_eq_some.mp h
  obtain ⟨i3, hi3, h⟩ := Option.bind_eq_some.mp h
  obtain ⟨_, _, h⟩ := Option.bind_eq_some.mp h
  obtain ⟨_, _, h⟩ := Option.bind_eq_some.mp h
  obtain ⟨_, _, h⟩ := Option.bind_eq_some.mp h
  obtain ⟨v1, hv1, h⟩ := Option.bind_eq_some.mp h
  obtain ⟨v1a, hv1a, h⟩ := Option.bind_eq_some.mp h
  obtain ⟨v2, hv2, h⟩ := Option.bind_eq_some.mp h
  obtain ⟨v2a, hv2a, h⟩ := Option.bind_eq_some.mp h
  obtain ⟨vc, hvc, h⟩ := Option.bind_eq_some.mp h
  obtain ⟨vca, hvca, h⟩ := Option.bind_eq_some.mp h
  obtain ⟨v3, hv3, h⟩ := Option.bind_eq_some.mp h
  cases h
  exact ⟨hb, hbv, hs, hi1, hi2, hi3, hv1, hv1a, hv2, hv2a, hvc, hvca, hv3⟩

end dxvk

/-! ## Lookup and accessor lemmas -/

namespace dxvk

open DxvkUnboundResources

/-- The lookup on a recognized shape yields the member view of that shape. -/
theorem getImageView_recognized (p : DxvkUnboundResources) :
    p.getImageView VK_IMAGE_VIEW_TYPE_1D = some p.m_view1D ∧
    p.getImageView VK_IMAGE_VIEW_TYPE_1D_ARRAY = some p.m_view1DArr ∧
    p.getImageView VK_IMAGE_VIEW_TYPE_2D = some p.m_view2D ∧
    p.getImageView VK_IMAGE_VIEW_TYPE_2D_ARRAY = some p.m_view2DArr ∧
    p.getImageView VK_IMAGE_VIEW_TYPE_CUBE = some p.m_viewCube ∧
    p.getImageView VK_IMAGE_VIEW_TYPE_CUBE_ARRAY = some p.m_viewCubeArr ∧
    p.getImageView VK_IMAGE_VIEW_TYPE_3D = some p.m_view3D :=
  ⟨rfl, rfl, rfl, rfl, rfl, rfl, rfl⟩

/-- The lookup on any other value yields no view. -/
theorem getImageView_unrecognized (p : DxvkUnboundResources) (type : VkImageViewType)
    (h : type ∉ recognizedViewTypes) : p.getImageView type = none := by
  simp only [recognizedViewTypes, List.mem_cons, List.mem_singleton, not_or,
    List.not_mem_nil, or_false] at h
  obtain ⟨h1, h2, h3, h4, h5, h6, h7⟩ := h
  simp only [getImageView, if_neg h1, if_neg h2, if_neg h3, if_neg h4, if_neg h5, if_neg h6,
    if_neg h7]

/-- With a view, the accessor returns the descriptor built from that view. -/
theorem imageViewDescriptor_of_view (p : DxvkUnboundResources) (type : VkImageViewType)
    (v : DxvkImageView) (h : p.getImageView type = some v) :
    p.imageViewDescriptor type =
      some { sampler := VK_NULL_HANDLE, imageView := v.handle,
             imageLayout := v.imageInfo.layout } := by
  simp only [imageViewDescriptor, h]

/-- Without a view, the accessor returns no descriptor. -/
theorem imageViewDescriptor_of_none (p : DxvkUnboundResources) (type : VkImageViewType)
    (h : p.getImageView type = none) : p.imageViewDescriptor type = none := by
  simp only [imageViewDescriptor, h]

/-- On a constructed provider every recognized shape has a view with a
non-null handle, of that shape, over an image used as shader-read-only. -/
theorem construct_views {dev : DxvkDevice} {p : DxvkUnboundResources}
    (h : construct dev = some p) (type : VkImageViewType)
    (ht : type ∈ recognizedViewTypes) :
    ∃ v, p.getImageView type = some v ∧ v.handle ≠ VK_NULL_HANDLE ∧
      v.imageInfo.layout = VK_IMAGE_LAYOUT_SHADER_READ_ONLY_OPTIMAL ∧ v.info.type = type := by
  obtain ⟨-, -, -, hi1, hi2, hi3, hv1, hv1a, hv2, hv2a, hvc, hvca, hv3⟩ := construct_some h
  have l1 := (createImage_some hi1).1
  have l2 := (createImage_some hi2).1
  have l3 := (createImage_some hi3).1
  have key : ∀ {i : DxvkImage} {t : VkImageViewType} {l : Nat} {v : DxvkImageView},
      createImageView dev i t l = some v →
      i.info.layout = VK_IMAGE_LAYOUT_SHADER_READ_ONLY_OPTIMAL →
      v.handle ≠ VK_NULL_HANDLE ∧
        v.imageInfo.layout = VK_IMAGE_LAYOUT_SHADER_READ_ONLY_OPTIMAL ∧ v.info.type = t := by
    intro i t l v hv hl
    obtain ⟨e1, e2, e3⟩ := createImageView_some hv
    refine ⟨e2, ?_, e3⟩
    show v.m_image.info.layout = _
    rw [e1]; exact hl
  simp only [recognizedViewTypes, List.mem_cons, List.mem_singleton, List.not_mem_nil,
    or_false] at ht
  rcases ht with rfl | rfl | rfl | rfl | rfl | rfl | rfl
  · exact ⟨_, rfl, key hv1 l1⟩
  · exact ⟨_, rfl, key hv1a l1⟩
  · exact ⟨_, rfl, key hv2 l2⟩
  · exact ⟨_, rfl, key hv2a l2⟩
  · exact ⟨_, rfl, key hvc l2⟩
  · exact ⟨_, rfl, key hvca l2⟩
  · exact ⟨_, rfl, key hv3 l3⟩

/-- The provider after a call is the provider before it. -/
theorem call_snd (p : DxvkUnboundResources) (a : Accessor) : (call p a).2 = p := by
  cases a with
  | bufferDescriptor => rfl
  | bufferViewDescriptor => rfl
  | samplerDescriptor => rfl
  | imageViewDescriptor type =>
    simp only [call]
    split <;> rfl

/-- The provider after any sequence of calls is the provider before it. -/
theorem callAll_eq (p : DxvkUnboundResources) (calls : List Accessor) :
    callAll p calls = p := by
  induction calls generalizing p with
  | nil => rfl
  | cons a rest ih => simp only [callAll, call_snd, ih]

end dxvk

/-! ## The accessor contract -/

namespace dxvk

open DxvkUnboundResources

/-- Claim C1: for every provider state, `samplerDescriptor` returns a
descriptor whose image view is the null handle, whose layout is
`VK_IMAGE_LAYOUT_UNDEFINED`, and whose sampler is the handle of the dummy
sampler of the provider. -/
theorem samplerDescriptor_fields (p : DxvkUnboundResources) :
    p.samplerDescriptor.imageView = VK_NULL_HANDLE ∧
    p.samplerDescriptor.imageLayout = VK_IMAGE_LAYOUT_UNDEFINED ∧
    p.samplerDescriptor.sampler = p.m_sampler.handle :=
  ⟨rfl, rfl, rfl⟩

/-- Claim C2: on a constructed provider, for each of the seven recognized view
shapes, `imageViewDescriptor` returns a descriptor, its view handle is not the
null handle, and its layout is the shader-read-only layout. -/
theorem imageViewDescriptor_recognized (dev : DxvkDevice) (p : DxvkUnboundResources)
    (h : construct dev = some p) (type : VkImageViewType)
    (ht : type ∈ recognizedViewTypes) :
    ∃ d, p.imageViewDescriptor type = some d ∧ d.imageView ≠ VK_NULL_HANDLE ∧
      d.imageLayout = VK_IMAGE_LAYOUT_SHADER_READ_ONLY_OPTIMAL := by
  obtain ⟨v, hv, hnull, hlayout, -⟩ := construct_views h type ht
  exact ⟨_, imageViewDescriptor_of_view p type v hv, hnull, hlayout⟩

/-- Instance of C2: the Cube view of the provider built on the stub device. -/
theorem imageViewDescriptor_recognized_witness :
    construct stubDevice = some stubProvider ∧
    VK_IMAGE_VIEW_TYPE_CUBE ∈ recognizedViewTypes ∧
    ∃ d, stubProvider.imageViewDescriptor VK_IMAGE_VIEW_TYPE_CUBE = some d ∧
      d.imageView ≠ VK_NULL_HANDLE ∧
      d.imageLayout = VK_IMAGE_LAYOUT_SHADER_READ_ONLY_OPTIMAL :=
  ⟨rfl, by decide,
    imageViewDescriptor_recognized stubDevice stubProvider rfl VK_IMAGE_VIEW_TYPE_CUBE
      (by decide)⟩

/-- Claim C3: `bufferDescriptor` returns the handle of the dummy buffer, offset
0, and a range equal to the full length of the dummy buffer; this holds for
every provider state, a constructed provider among them. -/
theorem bufferDescriptor_fields (p : DxvkUnboundResources) :
    p.bufferDescriptor.buffer = p.m_buffer.m_handle ∧
    p.bufferDescriptor.offset = 0 ∧
    p.bufferDescriptor.range = p.m_buffer.info.size :=
  ⟨rfl, rfl, rfl⟩

/-- Claim C4: the result of an accessor call is a function of the provider
and the argument only: the same call made again, directly or after any
sequence of other accessor calls on the same provider, returns the same
result. -/
theorem accessor_result_repeatable (p : DxvkUnboundResources) (a : Accessor)
    (between : List Accessor) :
    (call (call p a).2 a).1 = (call p a).1 ∧
    (call (callAll (call p a).2 between) a).1 = (call p a).1 := by
  rw [callAll_eq, call_snd]
  exact ⟨rfl, rfl⟩

/-- Claim C5: no accessor mutates the provider: after a call of any accessor
the provider is the one before the call, member by member, and so it is after
any sequence of calls. -/
theorem accessor_leaves_provider_unchanged (p : DxvkUnboundResources) (a : Accessor)
    (calls : List Accessor) :
    (call p a).2 = p ∧
    (call p a).2.m_sampler = p.m_sampler ∧
    (call p a).2.m_buffer = p.m_buffer ∧
    (call p a).2.m_bufferView = p.m_bufferView ∧
    (call p a).2.m_image1D = p.m_image1D ∧
    (call p a).2.m_image2D = p.m_image2D ∧
    (call p a).2.m_image3D = p.m_image3D ∧
    (call p a).2.m_view1D = p.m_view1D ∧
    (call p a).2.m_view1DArr = p.m_view1DArr ∧
    (call p a).2.m_view2D = p.m_view2D ∧
    (call p a).2.m_view2DArr = p.m_view2DArr ∧
    (call p a).2.m_viewCube = p.m_viewCube ∧
    (call p a).2.m_viewCubeArr = p.m_viewCubeArr ∧
    (call p a).2.m_view3D = p.m_view3D ∧
    callAll p calls = p := by
  rw [call_snd, callAll_eq]
  exact ⟨rfl, rfl, rfl, rfl, rfl, rfl, rfl, rfl, rfl, rfl, rfl, rfl, rfl, rfl, rfl⟩

/-- Claim C6: for a view-shape argument that is not one of the seven
recognized shapes the lookup yields no view and `imageViewDescriptor` returns
no descriptor: the call does not return. -/
theorem imageViewDescriptor_unrecognized (p : DxvkUnboundResources)
    (type : VkImageViewType) (h : type ∉ recognizedViewTypes) :
    p.getImageView type = none ∧
    p.imageViewDescriptor type = none ∧
    (call p (.imageViewDescriptor type)).1 = Returned.noReturn := by
  have hv := getImageView_unrecognized p type h
  have hd := imageViewDescriptor_of_none p type hv
  refine ⟨hv, hd, ?_⟩
  simp only [call, hd]

/-- Instance of C6: the value 7, one past the last shape, and the value -1,
on the provider built on the stub device. -/
theorem imageViewDescriptor_unrecognized_witness :
    (7 : VkImageViewType) ∉ recognizedViewTypes ∧
    stubProvider.imageViewDescriptor 7 = none ∧
    (-1 : VkImageViewType) ∉ recognizedViewTypes ∧
    stubProvider.imageViewDescriptor (-1) = none :=
  ⟨by decide, (imageViewDescriptor_unrecognized stubProvider 7 (by decide)).2.1,
    by decide, (imageViewDescriptor_unrecognized stubProvider (-1) (by decide)).2.1⟩

/-- Claim C7: on a constructed provider the views handed out for Cube-array
and for 2D have the same underlying image, the 2D dummy image of the
provider; the 2D-array and Cube views are views of that image as well. -/
theorem cubeArray_and_2D_share_image (dev : DxvkDevice) (p : DxvkUnboundResources)
    (h : construct dev = some p) :
    ∃ vCubeArr v2D dCubeArr d2D,
      p.getImageView VK_IMAGE_VIEW_TYPE_CUBE_ARRAY = some vCubeArr ∧
      p.getImageView VK_IMAGE_VIEW_TYPE_2D = some v2D ∧
      p.imageViewDescriptor VK_IMAGE_VIEW_TYPE_CUBE_ARRAY = some dCubeArr ∧
      p.imageViewDescriptor VK_IMAGE_VIEW_TYPE_2D = some d2D ∧
      dCubeArr.imageView = vCubeArr.handle ∧
      d2D.imageView = v2D.handle ∧
      vCubeArr.image = v2D.image ∧
      vCubeArr.image.handle = v2D.image.handle ∧
      v2D.image = p.m_image2D ∧
      p.m_view2DArr.image = p.m_image2D ∧
      p.m_viewCube.image = p.m_image2D := by
  obtain ⟨-, -, -, -, -, -, -, -, hv2, hv2a, hvc, hvca, -⟩ := construct_some h
  have e2 : p.m_view2D.image = p.m_image2D := (createImageView_some hv2).1
  have e2a : p.m_view2DArr.image = p.m_image2D := (createImageView_some hv2a).1
  have ec : p.m_viewCube.image = p.m_image2D := (createImageView_some hvc).1
  have eca : p.m_viewCubeArr.image = p.m_image2D := (createImageView_some hvca).1
  exact ⟨p.m_viewCubeArr, p.m_view2D, _, _, rfl, rfl, rfl, rfl, rfl, rfl,
    eca.trans e2.symm, by rw [eca, e2], e2, e2a, ec⟩

/-- Instance of C7: the provider built on the stub device. -/
theorem cubeArray_and_2D_share_image_witness :
    construct stubDevice = some stubProvider ∧
    ∃ vCubeArr v2D dCubeArr d2D,
      stubProvider.getImageView VK_IMAGE_VIEW_TYPE_CUBE_ARRAY = some vCubeArr ∧
      stubProvider.getImageView VK_IMAGE_VIEW_TYPE_2D = some v2D ∧
      stubProvider.imageViewDescriptor VK_IMAGE_VIEW_TYPE_CUBE_ARRAY = some dCubeArr ∧
      stubProvider.imageViewDescriptor VK_IMAGE_VIEW_TYPE_2D = some d2D ∧
      dCubeArr.imageView = vCubeArr.handle ∧
      d2D.imageView = v2D.handle ∧
      vCubeArr.image = v2D.image ∧
      vCubeArr.image.handle = v2D.image.handle ∧
      v2D.image = stubProvider.m_image2D ∧
      stubProvider.m_view2DArr.image = stubProvider.m_image2D ∧
      stubProvider.m_viewCube.image = stubProvider.m_image2D :=
  ⟨rfl, cubeArray_and_2D_share_image stubDevice stubProvider rfl⟩

/-- Claim C8: on a constructed provider `bufferViewDescriptor` returns the
handle of the dummy buffer view; that view is a view of the dummy buffer, its
format is `VK_FORMAT_R32_UINT`, and it starts at offset 0 and is as long as
one element of that format, which is the whole of the dummy buffer. -/
theorem bufferViewDescriptor_constructed (dev : DxvkDevice) (p : DxvkUnboundResources)
    (h : construct dev = some p) :
    p.bufferViewDescriptor = p.m_bufferView.handle ∧
    p.m_bufferView.m_buffer = p.m_buffer ∧
    p.m_bufferView.info.format = VK_FORMAT_R32_UINT ∧
    p.m_bufferView.info.rangeOffset = 0 ∧
    formatElementSize p.m_bufferView.info.format = some p.m_bufferView.info.rangeLength ∧
    p.m_bufferView.info.rangeLength = p.m_buffer.info.size := by
  obtain ⟨hb, hbv, -⟩ := construct_some h
  obtain ⟨hsize, -⟩ := createBuffer_some hb
  obtain ⟨hbuf, -, hinfo⟩ := createBufferView_some hbv
  have hi : p.m_bufferView.info =
      { format := VK_FORMAT_R32_UINT, rangeOffset := 0, rangeLength := p.m_buffer.info.size } :=
    hinfo
  refine ⟨rfl, hbuf, ?_, ?_, ?_, ?_⟩
  · rw [hi]
  · rw [hi]
  · rw [hi, hsize]; rfl
  · rw [hi]

/-- Instance of C8: the provider built on the stub device. -/
theorem bufferViewDescriptor_constructed_witness :
    construct stubDevice = some stubProvider ∧
    stubProvider.bufferViewDescriptor = 3 ∧
    stubProvider.m_bufferView.info.format = VK_FORMAT_R32_UINT ∧
    stubProvider.m_bufferView.info.rangeOffset = 0 ∧
    stubProvider.m_bufferView.info.rangeLength = 4 ∧
    stubProvider.m_buffer.info.size = 4 :=
  have w := bufferViewDescriptor_constructed stubDevice stubProvider rfl
  ⟨rfl, w.1, w.2.2.1, w.2.2.2.1, rfl, rfl⟩

/-- Claim C9: when the lookup yields a view, `imageViewDescriptor` returns a
descriptor whose sampler is the null handle; `samplerDescriptor` returns a
descriptor whose image view is the null handle; and no descriptor returned by
a call of any accessor carries both a sampler and an image view. -/
theorem image_descriptors_never_combined (p : DxvkUnboundResources)
    (type : VkImageViewType) (v : DxvkImageView) (h : p.getImageView type = some v) :
    (∃ d, p.imageViewDescriptor type = some d ∧ d.sampler = VK_NULL_HANDLE) ∧
    p.samplerDescriptor.imageView = VK_NULL_HANDLE ∧
    ∀ (a : Accessor) (d : VkDescriptorImageInfo), (call p a).1 = Returned.imageInfo d →
      ¬ (d.sampler ≠ VK_NULL_HANDLE ∧ d.imageView ≠ VK_NULL_HANDLE) := by
  refine ⟨⟨_, imageViewDescriptor_of_view p type v h, rfl⟩, rfl, ?_⟩
  intro a d hd hboth
  cases a with
  | bufferDescriptor => cases hd
  | bufferViewDescriptor => cases hd
  | samplerDescriptor =>
    cases hd
    exact hboth.2 rfl
  | imageViewDescriptor t =>
    cases hg : p.getImageView t with
    | none =>
      have hn := imageViewDescriptor_of_none p t hg
      simp only [call, hn] at hd
      cases hd
    | some w =>
      have hw := imageViewDescriptor_of_view p t w hg
      simp only [call, hw] at hd
      have hs : d.sampler = VK_NULL_HANDLE := by
        cases hd
        rfl
      exact hboth.1 hs

/-- Instance of C9: the 3D view of the provider built on the stub device. -/
theorem image_descriptors_never_combined_witness :
    stubProvider.getImageView VK_IMAGE_VIEW_TYPE_3D = some stubProvider.m_view3D ∧
    (∃ d, stubProvider.imageViewDescriptor VK_IMAGE_VIEW_TYPE_3D = some d ∧
      d.sampler = VK_NULL_HANDLE) ∧
    stubProvider.samplerDescriptor.imageView = VK_NULL_HANDLE :=
  have w := image_descriptors_never_combined stubProvider VK_IMAGE_VIEW_TYPE_3D
    stubProvider.m_view3D rfl
  ⟨rfl, w.1, w.2.1⟩

/-- Claim C10: when the lookup yields a view `v`, `imageViewDescriptor`
returns the handle of `v` as image view and, as layout, the layout recorded in
the creation info of the image behind `v`; so the returned layout is
shader-read-only exactly when that image was created with shader-read-only as
its layout. -/
theorem imageViewDescriptor_reads_layout (p : DxvkUnboundResources)
    (type : VkImageViewType) (v : DxvkImageView) (h : p.getImageView type = some v) :
    ∃ d, p.imageViewDescriptor type = some d ∧
      d.imageView = v.handle ∧
      d.imageLayout = v.image.info.layout ∧
      (d.imageLayout = VK_IMAGE_LAYOUT_SHADER_READ_ONLY_OPTIMAL ↔
        v.image.info.layout = VK_IMAGE_LAYOUT_SHADER_READ_ONLY_OPTIMAL) :=
  ⟨_, imageViewDescriptor_of_view p type v h, rfl, rfl, Iff.rfl⟩

/-- Instance of C10: the 2D view of the provider built on the stub device,
whose image records the shader-read-only layout, and the 2D view of a provider
whose image records the general layout: the layouts returned differ. -/
theorem imageViewDescriptor_reads_layout_witness :
    stubProvider.getImageView VK_IMAGE_VIEW_TYPE_2D = some stubProvider.m_view2D ∧
    (∃ d, stubProvider.imageViewDescriptor VK_IMAGE_VIEW_TYPE_2D = some d ∧
      d.imageView = 21 ∧ d.imageLayout = VK_IMAGE_LAYOUT_SHADER_READ_ONLY_OPTIMAL) ∧
    generalLayoutProvider.getImageView VK_IMAGE_VIEW_TYPE_2D =
      some generalLayoutProvider.m_view2D ∧
    (∃ d, generalLayoutProvider.imageViewDescriptor VK_IMAGE_VIEW_TYPE_2D = some d ∧
      d.imageView = 21 ∧ d.imageLayout = 1 ∧
      d.imageLayout ≠ VK_IMAGE_LAYOUT_SHADER_READ_ONLY_OPTIMAL) := by
  obtain ⟨d, hd, hv, hl, -⟩ := imageViewDescriptor_reads_layout stubProvider
    VK_IMAGE_VIEW_TYPE_2D stubProvider.m_view2D rfl
  obtain ⟨e, he, hw, hm, -⟩ := imageViewDescriptor_reads_layout generalLayoutProvider
    VK_IMAGE_VIEW_TYPE_2D generalLayoutProvider.m_view2D rfl
  refine ⟨rfl, ⟨d, hd, hv, hl⟩, rfl, ⟨e, he, hw, hm, ?_⟩⟩
  rw [hm]
  decide

end dxvk
